import Mathlib

/-!
Verification of the movement / collision / animation logic of `src/js/game.js`
(a browser 3D demo built on a third-party rendering engine).

The game logic is shallowly embedded: coordinates are exact rationals (`ℚ`),
the per-frame mutation of the `Game` object becomes explicit state passing on
a `GameState` record, and the animation system is an association list from
clip names to action records.  Angles written with `Math.PI` in the source are
stored in units of π (so `Math.PI / 2` is `1/2`).
-/

/-- A 3D vector, standing for `THREE.Vector3` (only the fields the game logic
reads and writes). -/
structure Vec3 where
  x : ℚ
  y : ℚ
  z : ℚ
deriving DecidableEq, Repr

/-- The building and door bounds object constructed at the top of
`checkBuildingCollision` (game.js lines 182-192). -/
structure BuildingBounds where
  minX : ℚ
  maxX : ℚ
  minZ : ℚ
  maxZ : ℚ
  doorMinX : ℚ
  doorMaxX : ℚ
  doorFrontZ : ℚ
  doorBackZ : ℚ
deriving DecidableEq, Repr

/-- The literal bounds from game.js: outer rectangle x,z ∈ [-50,-40], door
x ∈ [-46,-44], z ∈ [doorBackZ, doorFrontZ] = [-41,-40]. -/
def buildingBounds : BuildingBounds :=
  { minX := -50, maxX := -40, minZ := -50, maxZ := -40,
    doorMinX := -46, doorMaxX := -44, doorFrontZ := -40, doorBackZ := -41 }

/-- `Game.checkBuildingCollision` (game.js lines 181-215): returns `true`
(collision) when the candidate position is inside the outer rectangle but not
inside the door sub-rectangle, and `false` otherwise. -/
def checkBuildingCollision (newPosition : Vec3) : Bool :=
  if newPosition.x ≥ buildingBounds.minX ∧ newPosition.x ≤ buildingBounds.maxX ∧
     newPosition.z ≥ buildingBounds.minZ ∧ newPosition.z ≤ buildingBounds.maxZ then
    if newPosition.z ≥ buildingBounds.doorBackZ ∧ newPosition.z ≤ buildingBounds.doorFrontZ ∧
       newPosition.x ≥ buildingBounds.doorMinX ∧ newPosition.x ≤ buildingBounds.doorMaxX then
      false
    else
      true
  else
    false

/-- C1: inside the outer rectangle x,z ∈ [-50,-40], the collision check
returns `false` (movement allowed) iff the point is in the doorway sub-range
x ∈ [-46,-44], z ∈ [-41,-40]; otherwise it returns `true`. -/
theorem collision_inside_iff_doorway (p : Vec3)
    (hx1 : -50 ≤ p.x) (hx2 : p.x ≤ -40) (hz1 : -50 ≤ p.z) (hz2 : p.z ≤ -40) :
    (checkBuildingCollision p = false ↔
      (-46 ≤ p.x ∧ p.x ≤ -44 ∧ -41 ≤ p.z ∧ p.z ≤ -40)) ∧
    (¬ (-46 ≤ p.x ∧ p.x ≤ -44 ∧ -41 ≤ p.z ∧ p.z ≤ -40) →
      checkBuildingCollision p = true) := by
  unfold checkBuildingCollision buildingBounds
  simp only
  constructor
  · constructor
    · intro h
      split_ifs at h with h1 h2
      · exact ⟨h2.2.2.1, h2.2.2.2, h2.1, h2.2.1⟩
      · exact absurd ⟨hx1, hx2, hz1, hz2⟩ h1
    · intro h
      split_ifs with h1 h2
      · rfl
      · exact absurd ⟨h.2.2.1, h.2.2.2, h.1, h.2.1⟩ h2
      · rfl
  · intro hnot
    split_ifs with h1 h2
    · exact absurd ⟨h2.2.2.1, h2.2.2.2, h2.1, h2.2.1⟩ hnot
    · rfl
    · exact absurd ⟨hx1, hx2, hz1, hz2⟩ h1

/-- Witness for C1: the interior point (-48, 0, -45) is outside the doorway
sub-range and collides; instantiates `collision_inside_iff_doorway`. -/
theorem collision_inside_iff_doorway_witness :
    checkBuildingCollision ⟨-48, 0, -45⟩ = true :=
  (collision_inside_iff_doorway ⟨-48, 0, -45⟩
      (by norm_num) (by norm_num) (by norm_num) (by norm_num)).2 (by norm_num)

/-- C2: any candidate position outside the outer rectangle is collision-free. -/
theorem collision_outside_false (p : Vec3)
    (h : p.x < -50 ∨ p.x > -40 ∨ p.z < -50 ∨ p.z > -40) :
    checkBuildingCollision p = false := by
  unfold checkBuildingCollision buildingBounds
  simp only
  split_ifs with h1 h2
  · rcases h with h | h | h | h <;> linarith [h1.1, h1.2.1, h1.2.2.1, h1.2.2.2]
  · rcases h with h | h | h | h <;> linarith [h1.1, h1.2.1, h1.2.2.1, h1.2.2.2]
  · rfl

/-- Witness for C2: the origin (0,0,0) is outside the building rectangle and
collision-free; instantiates `collision_outside_false`. -/
theorem collision_outside_false_witness :
    checkBuildingCollision ⟨0, 0, 0⟩ = false :=
  collision_outside_false ⟨0, 0, 0⟩ (by norm_num)

/-- C10: the collision check never reads the candidate's `y` coordinate, so
any two heights over the same (x,z) footprint give the same result. -/
theorem collision_ignores_y (x z y1 y2 : ℚ) :
    checkBuildingCollision ⟨x, y1, z⟩ = checkBuildingCollision ⟨x, y2, z⟩ := rfl

/-! ## Animation actions

`THREE.AnimationAction` objects, shallowly: the fields that the game's
`playAnimation` / `forceAnimation` methods read or write through the action
API.  `fadeDir` records a scheduled fade (1 = fading in, -1 = fading out,
0 = none); the engine performs the actual weight interpolation over time. -/

structure AnimationAction where
  time : ℚ
  timeScale : ℚ
  weight : ℚ
  playing : Bool
  fadeDir : Int
  fadeDuration : ℚ
deriving DecidableEq, Repr

namespace AnimationAction

/-- `action.reset()`: rewinds to time 0 and cancels any scheduled fade. -/
def reset (a : AnimationAction) : AnimationAction :=
  { a with time := 0, fadeDir := 0, fadeDuration := 0 }

/-- `action.stop()`: deactivates the action and resets it. -/
def stop (a : AnimationAction) : AnimationAction :=
  reset { a with playing := false }

/-- `action.play()`: activates the action. -/
def play (a : AnimationAction) : AnimationAction :=
  { a with playing := true }

/-- `action.setEffectiveTimeScale(s)`. -/
def setEffectiveTimeScale (a : AnimationAction) (s : ℚ) : AnimationAction :=
  { a with timeScale := s }

/-- `action.setEffectiveWeight(w)`. -/
def setEffectiveWeight (a : AnimationAction) (w : ℚ) : AnimationAction :=
  { a with weight := w }

/-- `action.fadeIn(d)`: schedules a fade-in over duration `d`. -/
def fadeIn (a : AnimationAction) (d : ℚ) : AnimationAction :=
  { a with fadeDir := 1, fadeDuration := d }

/-- `action.fadeOut(d)`: schedules a fade-out over duration `d`. -/
def fadeOut (a : AnimationAction) (d : ℚ) : AnimationAction :=
  { a with fadeDir := -1, fadeDuration := d }

end AnimationAction

/-- The animation subsystem of the `Game` object: `this.animations` (a map
from clip name to its unique action object, kept as an association list) and
`this.currentAction` (a reference to one of those objects, kept as its name;
distinct names hold distinct objects, so the source's reference equality
`this.currentAction === this.animations[name]` is name equality). -/
structure AnimState where
  actions : List (String × AnimationAction)
  currentAction : Option String
deriving DecidableEq, Repr

/-- Lookup of `this.animations[name]`. -/
def lookupAction : List (String × AnimationAction) → String → Option AnimationAction
  | [], _ => none
  | (k, a) :: rest, n => if k = n then some a else lookupAction rest n

/-- In-place mutation of the action object stored under `name` (the JS methods
mutate the object that both `this.animations[name]` and possibly
`this.currentAction` reference). -/
def updateAction : List (String × AnimationAction) → String →
    (AnimationAction → AnimationAction) → List (String × AnimationAction)
  | [], _, _ => []
  | (k, a) :: rest, name, f =>
    (if k = name then (k, f a) else (k, a)) :: updateAction rest name f

/-- Updating the object stored under key `c` changes what a later lookup of
`n` returns exactly when the found entry's key is `c`. -/
theorem lookupAction_updateAction (l : List (String × AnimationAction)) (c n : String)
    (f : AnimationAction → AnimationAction) :
    lookupAction (updateAction l c f) n =
      (lookupAction l n).map (fun a => if n = c then f a else a) := by
  induction l with
  | nil => rfl
  | cons p rest ih =>
    obtain ⟨k, a⟩ := p
    by_cases hkc : k = c
    · subst hkc
      by_cases hkn : k = n
      · subst hkn
        simp only [updateAction]
        simp [lookupAction]
      · simp only [updateAction]
        simp [lookupAction, hkn, ih]
    · by_cases hkn : k = n
      · subst hkn
        simp only [updateAction]
        rw [if_neg hkc]
        simp [lookupAction, hkc]
      · simp only [updateAction]
        rw [if_neg hkc]
        simp [lookupAction, hkn, ih]

/-- `Game.forceAnimation` (game.js lines 303-318): stops the current action
unconditionally, then resets, rescales, reweights and plays the requested
one.  There is no early return when the requested action is already current. -/
def forceAnimation (s : AnimState) (name : String) : AnimState :=
  match lookupAction s.actions name with
  | none => s
  | some _ =>
    let actions1 :=
      match s.currentAction with
      | none => s.actions
      | some c => updateAction s.actions c AnimationAction.stop
    let actions2 := updateAction actions1 name (fun a =>
      AnimationAction.play
        (AnimationAction.setEffectiveWeight
          (AnimationAction.setEffectiveTimeScale (AnimationAction.reset a) 1) 1))
    { actions := actions2, currentAction := some name }

/-- `Game.playAnimation` (game.js lines 321-343): returns unchanged when the
clip is unknown or already current, otherwise cross-fades over 0.15s. -/
def playAnimation (s : AnimState) (name : String) : AnimState :=
  match lookupAction s.actions name with
  | none => s
  | some _ =>
    if s.currentAction = some name then s
    else
      let duration : ℚ := 15/100
      let actions1 :=
        match s.currentAction with
        | none => s.actions
        | some c => updateAction s.actions c (fun a => AnimationAction.fadeOut a duration)
      let actions2 := updateAction actions1 name (fun a =>
        AnimationAction.play
          (AnimationAction.fadeIn
            (AnimationAction.setEffectiveWeight
              (AnimationAction.setEffectiveTimeScale (AnimationAction.reset a) 1) 1)
            duration))
      { actions := actions2, currentAction := some name }

/-- A mid-playback Idle action: the Idle clip has been playing for a while
(time 3), at full weight, and is the current action. -/
def midIdleAction : AnimationAction :=
  { time := 3, timeScale := 1, weight := 1, playing := true,
    fadeDir := 0, fadeDuration := 0 }

/-- An animation state in which Idle is current and mid-playback. -/
def midIdleState : AnimState :=
  { actions := [("Idle", midIdleAction)], currentAction := some "Idle" }

/-- Counterexample to C5: re-selecting the current animation through
`forceAnimation` is NOT a no-op — it stops and restarts the action, rewinding
its playback time to 0. -/
theorem forceAnimation_not_idempotent :
    forceAnimation midIdleState "Idle" ≠ midIdleState := by decide

/-- C5 (amended): re-selecting the current animation through `playAnimation`
is a no-op; `forceAnimation`, by contrast, has no such guard — re-selecting
the current animation keeps it current but restarts it from time 0 at unit
time scale and full weight. -/
theorem playAnimation_idempotent_forceAnimation_restarts :
    (∀ (s : AnimState) (name : String),
      s.currentAction = some name → playAnimation s name = s) ∧
    (∀ (s : AnimState) (name : String) (a : AnimationAction),
      s.currentAction = some name → lookupAction s.actions name = some a →
      (forceAnimation s name).currentAction = some name ∧
      lookupAction (forceAnimation s name).actions name =
        some { time := 0, timeScale := 1, weight := 1, playing := true,
               fadeDir := 0, fadeDuration := 0 }) := by
  constructor
  · intro s name hcur
    unfold playAnimation
    cases h : lookupAction s.actions name with
    | none => rfl
    | some a => simp [hcur]
  · intro s name a hcur hlook
    unfold forceAnimation
    rw [hlook]
    refine ⟨rfl, ?_⟩
    simp only [hcur]
    rw [lookupAction_updateAction, lookupAction_updateAction, hlook]
    simp [AnimationAction.stop, AnimationAction.reset, AnimationAction.play,
      AnimationAction.setEffectiveTimeScale, AnimationAction.setEffectiveWeight]

/-- Witness for the amended C5: both conjuncts instantiated at the concrete
mid-playback Idle state. -/
theorem playAnimation_idempotent_forceAnimation_restarts_witness :
    playAnimation midIdleState "Idle" = midIdleState ∧
    (forceAnimation midIdleState "Idle").currentAction = some "Idle" ∧
    lookupAction (forceAnimation midIdleState "Idle").actions "Idle" =
      some { time := 0, timeScale := 1, weight := 1, playing := true,
             fadeDir := 0, fadeDuration := 0 } := by
  refine ⟨playAnimation_idempotent_forceAnimation_restarts.1 midIdleState "Idle" rfl, ?_⟩
  exact playAnimation_idempotent_forceAnimation_restarts.2 midIdleState "Idle"
    midIdleAction rfl (by decide)

/-! ## Game state and per-frame movement -/

/-- The keyboard state `this.keys` (game.js lines 34-40). -/
structure Keys where
  arrowUp : Bool
  arrowDown : Bool
  arrowLeft : Bool
  arrowRight : Bool
  space : Bool
deriving DecidableEq, Repr

/-- The loaded player object: its world position and `rotation.y` (yaw,
stored in units of π, so `Math.PI / 2` is `1/2`). -/
structure PlayerObj where
  position : Vec3
  rotationY : ℚ
deriving DecidableEq, Repr

/-- The follow camera: its position and the point passed to `lookAt`. -/
structure CameraState where
  position : Vec3
  lookAt : Vec3
deriving DecidableEq, Repr

/-- The mutable fields of the `Game` object that the movement, animation and
camera logic read and write.  `player` is `none` until the asynchronous model
load succeeds (`mixer` likewise starts unset). -/
structure GameState where
  player : Option PlayerObj
  mixer : Bool
  anim : AnimState
  isFlying : Bool
  keys : Keys
  camera : CameraState
deriving DecidableEq, Repr

/-- `this.flyingSpeed = 0.1`. -/
def flyingSpeed : ℚ := 1/10

/-- `this.fallSpeed = 0.15`. -/
def fallSpeed : ℚ := 15/100

/-- `this.speed = 0.1`. -/
def speed : ℚ := 1/10

/-- The four arrow-key blocks of `movePlayer` (game.js lines 228-247),
run in source order Up, Down, Left, Right: each pressed key displaces the
candidate position, overwrites the yaw, and marks the player as moving. -/
def applyArrows (keys : Keys) (pos : Vec3) (rot : ℚ) : Vec3 × ℚ × Bool :=
  let p1 := if keys.arrowUp then { pos with z := pos.z - speed } else pos
  let r1 := if keys.arrowUp then (0 : ℚ) else rot
  let m1 := keys.arrowUp
  let p2 := if keys.arrowDown then { p1 with z := p1.z + speed } else p1
  let r2 := if keys.arrowDown then (1 : ℚ) else r1
  let m2 := m1 || keys.arrowDown
  let p3 := if keys.arrowLeft then { p2 with x := p2.x - speed } else p2
  let r3 := if keys.arrowLeft then (1/2 : ℚ) else r2
  let m3 := m2 || keys.arrowLeft
  let p4 := if keys.arrowRight then { p3 with x := p3.x + speed } else p3
  let r4 := if keys.arrowRight then (-1/2 : ℚ) else r3
  let m4 := m3 || keys.arrowRight
  (p4, r4, m4)

/-- `Game.updateCameraPosition` (game.js lines 138-158): no-op without a
player; otherwise places the camera at the player plus offset (0, 4, 6) and
looks at (x, y + 0.5, z - 4). -/
def updateCameraPosition (g : GameState) : GameState :=
  match g.player with
  | none => g
  | some pl =>
    { g with camera :=
        { position := { x := pl.position.x + 0, y := pl.position.y + 4, z := pl.position.z + 6 },
          lookAt := { x := pl.position.x, y := pl.position.y + 1/2, z := pl.position.z - 4 } } }

/-- `Game.movePlayer` (game.js lines 217-300), with an extra Bool recording
whether this frame performed the forced landing transition (a call to
`forceAnimation`).  Control flow follows the source: early return without
player or mixer; arrow keys move-with-collision and set yaw; then the
flying / falling / grounded branches; finally `updateCameraPosition`. -/
def movePlayerAux (g : GameState) : GameState × Bool :=
  match g.player with
  | none => (g, false)
  | some pl =>
    if g.mixer = false then (g, false)
    else
      let res := applyArrows g.keys pl.position pl.rotationY
      let np := res.1
      let rot := res.2.1
      let isMoving := res.2.2
      let pos1 := if isMoving && !(checkBuildingCollision np) then np else pl.position
      if g.keys.space then
        -- Flying up
        let st := { g with
          player := some { position := { pos1 with y := pos1.y + flyingSpeed }, rotationY := rot },
          anim := playAnimation g.anim "Jump",
          isFlying := true }
        (updateCameraPosition st, false)
      else if pos1.y > 0 then
        -- Falling
        let pos2 := { pos1 with y := pos1.y - fallSpeed }
        if pos2.y ≤ 0 then
          -- Landing this frame: clamp to the ground and force the transition
          let st := { g with
            player := some { position := { pos2 with y := 0 }, rotationY := rot },
            anim := forceAnimation (playAnimation g.anim "Jump")
                      (if isMoving then "Run" else "Idle"),
            isFlying := false }
          (updateCameraPosition st, true)
        else
          let st := { g with
            player := some { position := pos2, rotationY := rot },
            anim := playAnimation g.anim "Jump" }
          (updateCameraPosition st, false)
      else
        if g.isFlying then
          -- Just landed
          let st := { g with
            player := some { position := pos1, rotationY := rot },
            anim := forceAnimation g.anim (if isMoving then "Run" else "Idle"),
            isFlying := false }
          (updateCameraPosition st, true)
        else
          -- Normal ground movement
          let st := { g with
            player := some { position := pos1, rotationY := rot },
            anim := playAnimation g.anim (if isMoving then "Run" else "Idle") }
          (updateCameraPosition st, false)

/-- The per-frame movement update as the source exposes it (the landing
event marker dropped). -/
def movePlayer (g : GameState) : GameState := (movePlayerAux g).1

/-- The player's height, 0 when no player is loaded. -/
def playerY (g : GameState) : ℚ :=
  match g.player with
  | none => 0
  | some pl => pl.position.y

/-! ## Helper lemmas about the per-frame update -/

/-- The arrow-key block never touches the candidate's height. -/
theorem applyArrows_y (k : Keys) (p : Vec3) (r : ℚ) :
    (applyArrows k p r).1.y = p.y := by
  obtain ⟨u, d, l, rr, s⟩ := k
  cases u <;> cases d <;> cases l <;> cases rr <;> rfl

/-- With no directional key pressed the arrow-key block is the identity. -/
theorem applyArrows_no_keys (k : Keys) (p : Vec3) (r : ℚ)
    (hu : k.arrowUp = false) (hd : k.arrowDown = false)
    (hl : k.arrowLeft = false) (hr : k.arrowRight = false) :
    applyArrows k p r = (p, r, false) := by
  obtain ⟨u, d, l, rr, s⟩ := k
  cases hu; cases hd; cases hl; cases hr
  rfl

/-- The camera update writes only the camera. -/
theorem updateCameraPosition_player (g : GameState) :
    (updateCameraPosition g).player = g.player := by
  unfold updateCameraPosition
  cases h : g.player <;> simp [h]

/-- The camera update leaves the animation state alone. -/
theorem updateCameraPosition_anim (g : GameState) :
    (updateCameraPosition g).anim = g.anim := by
  unfold updateCameraPosition
  cases h : g.player <;> simp [h]

/-- The camera update leaves the height alone. -/
theorem playerY_updateCameraPosition (g : GameState) :
    playerY (updateCameraPosition g) = playerY g := by
  unfold playerY
  rw [updateCameraPosition_player]

/-- The position the vertical logic starts from keeps the current height,
whether or not the horizontal move was blocked. -/
theorem blockedOrMoved_y (g : GameState) (pl : PlayerObj) :
    (if (applyArrows g.keys pl.position pl.rotationY).2.2 &&
        !(checkBuildingCollision (applyArrows g.keys pl.position pl.rotationY).1)
     then (applyArrows g.keys pl.position pl.rotationY).1
     else pl.position).y = pl.position.y := by
  split_ifs
  · exact applyArrows_y ..
  · rfl

/-- `playAnimation` makes the requested clip current whenever it exists. -/
theorem playAnimation_currentAction (s : AnimState) (name : String)
    (h : (lookupAction s.actions name).isSome = true) :
    (playAnimation s name).currentAction = some name := by
  unfold playAnimation
  cases hl : lookupAction s.actions name with
  | none => rw [hl] at h; simp at h
  | some a =>
    by_cases hc : s.currentAction = some name
    · simp [hc]
    · simp [hc]

/-- `forceAnimation` makes the requested clip current whenever it exists. -/
theorem forceAnimation_currentAction (s : AnimState) (name : String)
    (h : (lookupAction s.actions name).isSome = true) :
    (forceAnimation s name).currentAction = some name := by
  unfold forceAnimation
  cases hl : lookupAction s.actions name with
  | none => rw [hl] at h; simp at h
  | some a => simp

/-- Updating one entry never changes which clips exist. -/
theorem lookupAction_isSome_updateAction (l : List (String × AnimationAction))
    (c n : String) (f : AnimationAction → AnimationAction) :
    (lookupAction (updateAction l c f) n).isSome = (lookupAction l n).isSome := by
  rw [lookupAction_updateAction]
  cases lookupAction l n <;> rfl

/-- `playAnimation` never changes which clips exist. -/
theorem lookupAction_isSome_playAnimation (s : AnimState) (m n : String) :
    (lookupAction (playAnimation s m).actions n).isSome =
      (lookupAction s.actions n).isSome := by
  unfold playAnimation
  cases hl : lookupAction s.actions m with
  | none => rfl
  | some a =>
    by_cases hc : s.currentAction = some m
    · simp [hc]
    · cases hcur : s.currentAction with
      | none => simp [hc, hcur, lookupAction_isSome_updateAction]
      | some c =>
        have hcm : ¬ c = m := by rw [hcur] at hc; simpa using hc
        simp [hc, hcur, hcm, lookupAction_isSome_updateAction]

/-- The camera update leaves the flying flag alone. -/
theorem updateCameraPosition_isFlying (g : GameState) :
    (updateCameraPosition g).isFlying = g.isFlying := by
  unfold updateCameraPosition
  cases h : g.player <;> simp [h]

/-- Until the asynchronous load has set both `player` and `mixer`, the
per-frame movement update returns immediately. -/
theorem movePlayer_noop (g : GameState) (h : g.player = none ∨ g.mixer = false) :
    movePlayer g = g := by
  unfold movePlayer movePlayerAux
  rcases h with h | h
  · rw [h]
  · cases hp : g.player with
    | none => rfl
    | some pl => simp [h]

/-- Rising branch: while Space is held the frame adds `flyingSpeed` to the
height, plays Jump, sets `isFlying`, and performs no forced transition. -/
theorem movePlayerAux_rising (g : GameState) (pl : PlayerObj)
    (hp : g.player = some pl) (hm : g.mixer = true) (hs : g.keys.space = true) :
    playerY (movePlayer g) = pl.position.y + flyingSpeed ∧
    (movePlayerAux g).2 = false ∧
    (movePlayer g).isFlying = true ∧
    (movePlayer g).anim = playAnimation g.anim "Jump" := by
  unfold movePlayer movePlayerAux
  rw [hp]
  simp only [hm, hs, if_true, Bool.true_eq_false, if_false,
    playerY_updateCameraPosition, updateCameraPosition_anim]
  refine ⟨?_, trivial, ?_, trivial⟩
  · simp only [playerY]
    rw [show (if (applyArrows g.keys pl.position pl.rotationY).2.2 &&
        !(checkBuildingCollision (applyArrows g.keys pl.position pl.rotationY).1)
      then (applyArrows g.keys pl.position pl.rotationY).1
      else pl.position).y = pl.position.y from blockedOrMoved_y g pl]
  · unfold updateCameraPosition
    simp

/-- Falling branch, still airborne after this frame: the height drops by
`fallSpeed`, Jump keeps playing, no forced transition. -/
theorem movePlayerAux_falling (g : GameState) (pl : PlayerObj)
    (hp : g.player = some pl) (hm : g.mixer = true) (hs : g.keys.space = false)
    (hy : 0 < pl.position.y) (hnl : ¬ pl.position.y - fallSpeed ≤ 0) :
    playerY (movePlayer g) = pl.position.y - fallSpeed ∧
    (movePlayerAux g).2 = false ∧
    (movePlayer g).isFlying = g.isFlying ∧
    (movePlayer g).anim = playAnimation g.anim "Jump" := by
  unfold movePlayer movePlayerAux
  rw [hp]
  simp only [hm, hs, Bool.true_eq_false, Bool.false_eq_true, if_true, if_false,
    ite_true, ite_false]
  rw [blockedOrMoved_y g pl]
  simp only [hy, gt_iff_lt, ite_true, if_true]
  simp only [hnl, ite_false, if_false]
  refine ⟨?_, ?_, ?_, ?_⟩ <;> trivial

/-- Landing frame: the raw fall would reach or cross the ground, so the
height clamps to exactly 0, `isFlying` clears, and the forced Run/Idle
transition fires. -/
theorem movePlayerAux_landing (g : GameState) (pl : PlayerObj)
    (hp : g.player = some pl) (hm : g.mixer = true) (hs : g.keys.space = false)
    (hy : 0 < pl.position.y) (hl : pl.position.y - fallSpeed ≤ 0) :
    playerY (movePlayer g) = 0 ∧
    (movePlayerAux g).2 = true ∧
    (movePlayer g).isFlying = false ∧
    (movePlayer g).anim = forceAnimation (playAnimation g.anim "Jump")
      (if (applyArrows g.keys pl.position pl.rotationY).2.2 then "Run" else "Idle") := by
  unfold movePlayer movePlayerAux
  rw [hp]
  simp only [hm, hs, Bool.true_eq_false, Bool.false_eq_true, if_true, if_false,
    ite_true, ite_false]
  rw [blockedOrMoved_y g pl]
  simp only [hy, gt_iff_lt, ite_true, if_true]
  simp only [hl, ite_true, if_true]
  refine ⟨?_, ?_, ?_, ?_⟩ <;> trivial

/-- Grounded branch (Space up, height not positive): the height is left as it
is; when `isFlying` is already clear the frame performs no forced transition
and selects Run or Idle by cross-fade according to `isMoving`. -/
theorem movePlayerAux_grounded (g : GameState) (pl : PlayerObj)
    (hp : g.player = some pl) (hm : g.mixer = true) (hs : g.keys.space = false)
    (hy : ¬ 0 < pl.position.y) :
    playerY (movePlayer g) = pl.position.y ∧
    (g.isFlying = false →
      (movePlayerAux g).2 = false ∧
      (movePlayer g).anim = playAnimation g.anim
        (if (applyArrows g.keys pl.position pl.rotationY).2.2 then "Run" else "Idle")) := by
  unfold movePlayer movePlayerAux
  rw [hp]
  simp only [hm, hs, Bool.true_eq_false, Bool.false_eq_true, if_true, if_false,
    ite_true, ite_false]
  rw [blockedOrMoved_y g pl]
  simp only [hy, gt_iff_lt, ite_false, if_false]
  constructor
  · cases hf : g.isFlying <;>
      · simp only [hf, Bool.true_eq_false, Bool.false_eq_true, if_true, if_false,
          ite_true, ite_false, eq_self_iff_true]
        rw [playerY_updateCameraPosition]
        simp only [playerY]
        split_ifs
        · exact applyArrows_y ..
        · rfl
  · intro hf
    simp only [hf, Bool.false_eq_true, if_false, ite_false]
    refine ⟨trivial, ?_⟩
    dsimp only
    rw [updateCameraPosition_anim]

/-! ## Loading, the frame loop, and concrete states -/

/-- Outcome of the one-shot asynchronous `loader.load` fetch in
`setupPlayer`: success delivers the model's clip actions, or it fails. -/
inductive LoadResult where
  | success (clips : List (String × AnimationAction))
  | failure
deriving DecidableEq, Repr

/-- A freshly created `clipAction`: time 0, unit scale, full weight, not yet
playing, no fade scheduled. -/
def initAction : AnimationAction :=
  { time := 0, timeScale := 1, weight := 1, playing := false,
    fadeDir := 0, fadeDuration := 0 }

/-- Effect of `setupPlayer`'s `loader.load` outcome on the game state
(game.js lines 89-136).  On success the callback places the player at the
origin, creates the mixer, registers the model's clip actions plus the custom
Jump action, and starts Idle.  `setupPlayer` passes no failure callback, so
on failure nothing in the game state changes (the external loader's default
handler only logs; per the spec, loading is handled entirely by the external
model-loading collaborator). -/
def applyLoadResult (g : GameState) : LoadResult → GameState
  | .success clips =>
    { g with
      player := some { position := { x := 0, y := 0, z := 0 }, rotationY := 0 },
      mixer := true,
      anim := { actions := updateAction (clips ++ [("Jump", initAction)]) "Idle"
                  AnimationAction.play,
                currentAction := some "Idle" } }
  | .failure => g

/-- `const deltaTime = 0.016`. -/
def deltaTime : ℚ := 16/1000

/-- Shallow model of the external `THREE.AnimationMixer.update` collaborator:
advances every playing action's local time; weight blending happens inside
the engine and is out of scope. -/
def mixerUpdate (s : AnimState) (dt : ℚ) : AnimState :=
  { s with actions := s.actions.map (fun p =>
      if p.2.playing then (p.1, { p.2 with time := p.2.time + p.2.timeScale * dt })
      else p) }

/-- One `animate` frame callback (game.js lines 345-362): update the mixer
when present, run the movement logic, then hand off to the external renderer
(which reads but never writes game state). -/
def animateFrame (g : GameState) : GameState :=
  let g1 := if g.mixer then { g with anim := mixerUpdate g.anim deltaTime } else g
  movePlayer g1

/-- `n` frames of the `requestAnimationFrame` loop. -/
def animateN (g : GameState) : Nat → GameState
  | 0 => g
  | n + 1 => animateN (animateFrame g) n

/-- The game state right after the constructor (game.js lines 4-45): no
player or mixer yet, no keys pressed, not flying, camera placed at
(0, 5, 10) with its default orientation target. -/
def initialGameState : GameState :=
  { player := none, mixer := false,
    anim := { actions := [], currentAction := none },
    isFlying := false,
    keys := { arrowUp := false, arrowDown := false, arrowLeft := false,
              arrowRight := false, space := false },
    camera := { position := { x := 0, y := 5, z := 10 },
                lookAt := { x := 0, y := 0, z := 0 } } }

/-- A grounded action at time 0 used to build concrete loaded states. -/
def groundAction : AnimationAction :=
  { time := 0, timeScale := 1, weight := 1, playing := true,
    fadeDir := 0, fadeDuration := 0 }

/-- The clip table of a loaded Soldier model plus the custom Jump clip. -/
def readyAnims : List (String × AnimationAction) :=
  [("Idle", groundAction), ("Run", groundAction), ("Jump", groundAction)]

/-- The player standing at the origin facing forward. -/
def pl0 : PlayerObj :=
  { position := { x := 0, y := 0, z := 0 }, rotationY := 0 }

/-- A concrete fully loaded, grounded, idle game state. -/
def readyState : GameState :=
  { player := some pl0, mixer := true,
    anim := { actions := readyAnims, currentAction := some "Idle" },
    isFlying := false,
    keys := { arrowUp := false, arrowDown := false, arrowLeft := false,
              arrowRight := false, space := false },
    camera := { position := { x := 0, y := 5, z := 10 },
                lookAt := { x := 0, y := 0, z := 0 } } }

/-! ## Claims about the per-frame update -/

/-- C7: before the asynchronous load has delivered the player and mixer,
`movePlayer` returns immediately and leaves the whole game state (position,
facing, flying flag, animation, camera) unchanged. -/
theorem movePlayer_absent_is_noop (g : GameState)
    (h : g.player = none ∨ g.mixer = false) : movePlayer g = g :=
  movePlayer_noop g h

/-- Witness for C7: in the freshly constructed state the player has not
loaded, and the frame update is the identity. -/
theorem movePlayer_absent_is_noop_witness :
    movePlayer initialGameState = initialGameState :=
  movePlayer_absent_is_noop initialGameState (Or.inl rfl)

/-- C4: on a grounded frame (height 0, not flying, Space up) with no
directional key pressed, `movePlayer` selects Idle as the current action. -/
theorem idle_when_grounded_no_keys (g : GameState) (pl : PlayerObj)
    (hp : g.player = some pl) (hm : g.mixer = true)
    (hy : pl.position.y = 0) (hfly : g.isFlying = false)
    (hs : g.keys.space = false) (hu : g.keys.arrowUp = false)
    (hd : g.keys.arrowDown = false) (hl : g.keys.arrowLeft = false)
    (hr : g.keys.arrowRight = false)
    (hidle : (lookupAction g.anim.actions "Idle").isSome = true) :
    (movePlayer g).anim.currentAction = some "Idle" := by
  have hy2 : ¬ 0 < pl.position.y := by rw [hy]; exact lt_irrefl 0
  obtain ⟨_, h2⟩ := movePlayerAux_grounded g pl hp hm hs hy2
  obtain ⟨_, hanim⟩ := h2 hfly
  rw [hanim, applyArrows_no_keys g.keys pl.position pl.rotationY hu hd hl hr]
  simp only [Bool.false_eq_true, if_false, ite_false]
  exact playAnimation_currentAction g.anim "Idle" hidle

/-- Witness for C4: the loaded, grounded, key-less state keeps Idle current
after a frame. -/
theorem idle_when_grounded_no_keys_witness :
    (movePlayer readyState).anim.currentAction = some "Idle" :=
  idle_when_grounded_no_keys readyState pl0 rfl rfl rfl rfl rfl rfl rfl rfl rfl
    (by decide)

/-- C3: while Space is held every frame raises the height by exactly
`flyingSpeed` (strict increase, no forced transition); once Space is released
with positive height, every frame strictly lowers the height, staying
nonnegative; the height becomes exactly 0 on the frame whose raw fall reaches
or crosses the ground — precisely when the forced Run/Idle landing transition
fires, clearing `isFlying` — and on later grounded frames no forced
transition fires and the height stays 0. -/
theorem jump_rise_fall_land (g : GameState) (pl : PlayerObj)
    (hp : g.player = some pl) (hm : g.mixer = true) :
    (g.keys.space = true →
      playerY (movePlayer g) = pl.position.y + flyingSpeed ∧
      pl.position.y < playerY (movePlayer g) ∧
      (movePlayerAux g).2 = false) ∧
    (g.keys.space = false → 0 < pl.position.y →
      playerY (movePlayer g) < pl.position.y ∧
      0 ≤ playerY (movePlayer g) ∧
      (playerY (movePlayer g) = 0 ↔ pl.position.y ≤ fallSpeed) ∧
      ((movePlayerAux g).2 = true ↔ pl.position.y ≤ fallSpeed) ∧
      (pl.position.y ≤ fallSpeed →
        (movePlayer g).isFlying = false ∧
        ((lookupAction g.anim.actions "Run").isSome = true →
         (lookupAction g.anim.actions "Idle").isSome = true →
         (movePlayer g).anim.currentAction = some "Run" ∨
           (movePlayer g).anim.currentAction = some "Idle"))) ∧
    (g.keys.space = false → pl.position.y = 0 → g.isFlying = false →
      (movePlayerAux g).2 = false ∧ playerY (movePlayer g) = 0) := by
  refine ⟨?_, ?_, ?_⟩
  · intro hs
    obtain ⟨h1, h2, _, _⟩ := movePlayerAux_rising g pl hp hm hs
    refine ⟨h1, ?_, h2⟩
    rw [h1]
    unfold flyingSpeed
    linarith
  · intro hs hy
    by_cases hland : pl.position.y - fallSpeed ≤ 0
    · obtain ⟨h1, h2, h3, h4⟩ := movePlayerAux_landing g pl hp hm hs hy hland
      have hyf : pl.position.y ≤ fallSpeed := by linarith
      refine ⟨by rw [h1]; exact hy, by simp [h1], ⟨fun _ => hyf, fun _ => h1⟩,
        ⟨fun _ => hyf, fun _ => h2⟩, ?_⟩
      intro _
      refine ⟨h3, ?_⟩
      intro hRun hIdle
      rw [h4]
      cases hmv : (applyArrows g.keys pl.position pl.rotationY).2.2
      · right
        simp only [hmv, Bool.false_eq_true, if_false, ite_false]
        apply forceAnimation_currentAction
        rw [lookupAction_isSome_playAnimation]
        exact hIdle
      · left
        simp only [hmv, if_true, ite_true]
        apply forceAnimation_currentAction
        rw [lookupAction_isSome_playAnimation]
        exact hRun
    · push_neg at hland
      obtain ⟨h1, h2, _, _⟩ := movePlayerAux_falling g pl hp hm hs hy (by linarith)
      refine ⟨?_, ?_, ?_, ?_, ?_⟩
      · rw [h1]
        unfold fallSpeed
        linarith
      · rw [h1]
        linarith
      · rw [h1]
        constructor
        · intro h0
          exfalso
          rw [sub_eq_zero] at h0
          rw [h0] at hland
          simp at hland
        · intro hle
          exfalso
          linarith
      · rw [h2]
        constructor
        · intro hff
          exact absurd hff (by simp)
        · intro hle
          exfalso
          linarith
      · intro hle
        exfalso
        linarith
  · intro hs hy0 hfly
    have hy : ¬ 0 < pl.position.y := by rw [hy0]; exact lt_irrefl 0
    obtain ⟨h1, h2⟩ := movePlayerAux_grounded g pl hp hm hs hy
    exact ⟨(h2 hfly).1, by rw [h1, hy0]⟩

/-- Witness for C3: grounded idle frame fires no forced transition and keeps
the height at 0; instantiates `jump_rise_fall_land`. -/
theorem jump_rise_fall_land_witness :
    (movePlayerAux readyState).2 = false ∧ playerY (movePlayer readyState) = 0 :=
  (jump_rise_fall_land readyState pl0 rfl rfl).2.2 rfl rfl rfl

/-- C9: the height stays nonnegative across a frame, and a landing frame
(falling from at most `fallSpeed` above ground) clamps it to exactly 0. -/
theorem movePlayer_y_nonneg (g : GameState) (h : 0 ≤ playerY g) :
    0 ≤ playerY (movePlayer g) ∧
    (∀ pl, g.player = some pl → g.mixer = true → g.keys.space = false →
      0 < pl.position.y → pl.position.y ≤ fallSpeed →
      playerY (movePlayer g) = 0) := by
  constructor
  · cases hp : g.player with
    | none =>
      rw [movePlayer_noop g (Or.inl hp)]
      exact h
    | some pl =>
      cases hm : g.mixer with
      | false =>
        rw [movePlayer_noop g (Or.inr hm)]
        exact h
      | true =>
        have hYg : playerY g = pl.position.y := by simp [playerY, hp]
        cases hs : g.keys.space with
        | true =>
          obtain ⟨h1, _, _, _⟩ := movePlayerAux_rising g pl hp hm hs
          rw [h1]
          rw [hYg] at h
          unfold flyingSpeed
          linarith
        | false =>
          by_cases hy : 0 < pl.position.y
          · by_cases hland : pl.position.y - fallSpeed ≤ 0
            · obtain ⟨h1, _, _, _⟩ := movePlayerAux_landing g pl hp hm hs hy hland
              exact le_of_eq h1.symm
            · push_neg at hland
              obtain ⟨h1, _, _, _⟩ :=
                movePlayerAux_falling g pl hp hm hs hy (by linarith)
              rw [h1]
              linarith
          · obtain ⟨h1, _⟩ := movePlayerAux_grounded g pl hp hm hs hy
            rw [h1, ← hYg]
            exact h
  · intro pl hp hm hs hy hyf
    obtain ⟨h1, _, _, _⟩ := movePlayerAux_landing g pl hp hm hs hy (by linarith)
    exact h1

/-- Witness for C9: the grounded state keeps its height at 0 (hence
nonnegative) after a frame; instantiates `movePlayer_y_nonneg`. -/
theorem movePlayer_y_nonneg_witness : 0 ≤ playerY (movePlayer readyState) :=
  (movePlayer_y_nonneg readyState (le_refl 0)).1

/-! ## Purity of the collision check, and load failure -/

/-- `checkBuildingCollision` seen as a call on the game object: its body
reads only the argument and its own local constants and assigns no field, so
the receiver state passes through untouched and the Bool depends on the
argument alone. -/
def checkBuildingCollisionS (g : GameState) (newPosition : Vec3) :
    GameState × Bool :=
  (g, checkBuildingCollision newPosition)

/-- C8: the collision check is pure and deterministic — it leaves the game
state exactly as it was, its result agrees with the state-free function, and
equal candidate inputs give equal results regardless of the receiver
state. -/
theorem checkBuildingCollision_pure (g g2 : GameState) (p q : Vec3)
    (hpq : p = q) :
    (checkBuildingCollisionS g p).1 = g ∧
    (checkBuildingCollisionS g p).2 = checkBuildingCollision p ∧
    (checkBuildingCollisionS g p).2 = (checkBuildingCollisionS g2 q).2 := by
  subst hpq
  exact ⟨rfl, rfl, rfl⟩

/-- Witness for C8: two different receiver states, same candidate, equal
results and untouched state; instantiates `checkBuildingCollision_pure`. -/
theorem checkBuildingCollision_pure_witness :
    (checkBuildingCollisionS readyState ⟨0, 0, 0⟩).1 = readyState ∧
    (checkBuildingCollisionS readyState ⟨0, 0, 0⟩).2 =
      checkBuildingCollision ⟨0, 0, 0⟩ ∧
    (checkBuildingCollisionS readyState ⟨0, 0, 0⟩).2 =
      (checkBuildingCollisionS initialGameState ⟨0, 0, 0⟩).2 :=
  checkBuildingCollision_pure readyState initialGameState ⟨0, 0, 0⟩ ⟨0, 0, 0⟩ rfl

/-- C6: a load failure changes no game state (the game installs no failure
callback; the external loader's default handler only logs), and the frame
loop keeps running unaffected: starting from the constructor state, every
subsequent frame callback completes its update steps and leaves the
not-yet-loaded state as it was. -/
theorem load_failure_nonfatal :
    (∀ g : GameState, applyLoadResult g .failure = g) ∧
    (∀ n : Nat,
      animateN (applyLoadResult initialGameState .failure) n = initialGameState) := by
  refine ⟨fun g => rfl, ?_⟩
  have hframe : animateFrame initialGameState = initialGameState := rfl
  intro n
  induction n with
  | zero => rfl
  | succ n ih =>
    show animateN (animateFrame (applyLoadResult initialGameState .failure)) n = _
    rw [show applyLoadResult initialGameState .failure = initialGameState from rfl,
      hframe]
    exact ih
